import Mathlib

/-!
Shallow embedding of the inventory dashboard (`src/app.py`).

Layer 1 (adapter, `load_data`): raw sheets are tables of cells; `load_data`
models `conn.read(usecols=[0..4])`, `dropna(how="all")`, the drop of
`Unnamed` columns, and — for `"Sheet1"` only — the coercion
`pd.to_numeric(QUANTITY, errors="coerce").fillna(0).astype(int)`.
Read failure is modelled by an `Except` argument; the `Bool` in the result
records that an error message was surfaced (`st.error`).

Layer 2 (mutation service): the typed inventory table the update handler
works on after the Sheet1 load (named columns PRODUCT, SIZE, QUANTITY plus
the remaining pass-through cells), the `Update Inventory` button handler
(`app.py` lines 114-155), and `log_inventory_change` (lines 40-60).
External-write outcomes are supplied by an oracle; the attempted writes are
recorded as an effect trace.
-/

namespace Inv

/-- A spreadsheet cell as delivered by the pandas read: missing (`NaN`),
numeric, or textual. -/
inductive Cell where
  | na : Cell
  | num : Int → Cell
  | str : String → Cell
deriving DecidableEq

/-- A raw sheet: header row plus data rows of cells. -/
structure Table where
  headers : List String
  rows : List (List Cell)
deriving DecidableEq

def Table.empty : Table := ⟨[], []⟩

/-- Numeric value of a digit string (helper for `parseNumeric`). -/
def natOfDigits (cs : List Char) : Nat :=
  cs.foldl (fun a c => a * 10 + (c.toNat - 48)) 0

/-- Model of `pd.to_numeric(·, errors="coerce")` followed by the `int` cast
on strings: optional sign, digits, optional fractional part (truncated
toward zero, as `astype(int)` does); anything else is not numeric. -/
def parseNumeric (s : String) : Option Int :=
  let core : List Char → Option Nat := fun cs =>
    let intPart := cs.takeWhile (fun c => c ≠ '.')
    let rest := cs.dropWhile (fun c => c ≠ '.')
    match rest with
    | [] =>
        if intPart ≠ [] ∧ intPart.all Char.isDigit then some (natOfDigits intPart)
        else none
    | '.' :: frac =>
        if intPart.all Char.isDigit ∧ frac.all Char.isDigit ∧ (intPart ≠ [] ∨ frac ≠ [])
        then some (natOfDigits intPart)
        else none
    | _ => none
  match s.data with
  | '-' :: cs => (core cs).map (fun n => -(n : Int))
  | '+' :: cs => (core cs).map (fun n => (n : Int))
  | cs => (core cs).map (fun n => (n : Int))

/-- `pd.to_numeric(·, errors="coerce").fillna(0).astype(int)` on one cell:
numbers pass through, parseable strings are parsed, everything else
(missing or non-numeric) becomes 0. -/
def coerceCell : Cell → Int
  | Cell.na => 0
  | Cell.num n => n
  | Cell.str s =>
      match parseNumeric s with
      | some n => n
      | none => 0

/-- `usecols=[0, 1, 2, 3, 4]`: only the first five columns are read. -/
def takeCols (n : Nat) (t : Table) : Table :=
  ⟨t.headers.take n, t.rows.map (List.take n)⟩

/-- `data.dropna(how="all")`: drop rows whose cells are all missing. -/
def dropEmptyRows (t : Table) : Table :=
  ⟨t.headers, t.rows.filter (fun row => !(row.all (fun c => c == Cell.na)))⟩

/-- Character-list test used to model the `^Unnamed` regex. -/
def leadsWith : List Char → List Char → Bool
  | [], _ => true
  | _ :: _, [] => false
  | a :: as, b :: bs => a == b && leadsWith as bs

/-- `data.columns.str.contains('^Unnamed')`: the header starts with
`Unnamed`. -/
def headerUnnamed (h : String) : Bool := leadsWith "Unnamed".data h.data

def keepHeader (h : String) : Bool := !headerUnnamed h

/-- `data.loc[:, ~data.columns.str.contains('^Unnamed')]`. -/
def dropUnnamedCols (t : Table) : Table :=
  ⟨t.headers.filter keepHeader,
   t.rows.map (fun row => ((t.headers.zip row).filter (fun hc => keepHeader hc.1)).map Prod.snd)⟩

/-- The cleanup pipeline applied to every successful read. -/
def preprocess (t : Table) : Table := dropUnnamedCols (dropEmptyRows (takeCols 5 t))

/-- `data['QUANTITY'] = pd.to_numeric(data['QUANTITY'], ...)`: coerce the
QUANTITY column; `none` models the `KeyError` when the column is absent. -/
def coerceQuantityCol (t : Table) : Option Table :=
  match t.headers.findIdx? (fun h => h == "QUANTITY") with
  | none => none
  | some i =>
      some ⟨t.headers,
            t.rows.map (fun row => row.set i (Cell.num (coerceCell (row.getD i Cell.na))))⟩

/-- `load_data(sheet_name)` (`app.py` lines 16-28). `readResult` stands for
the outcome of `conn.read`; the `Bool` result records whether `st.error`
was called. On any failure the function returns an empty table instead of
raising. -/
def load_data (readResult : Except Unit Table) (sheet_name : String) : Table × Bool :=
  match readResult with
  | Except.error _ => (Table.empty, true)
  | Except.ok raw =>
      let t := preprocess raw
      if sheet_name = "Sheet1" then
        match coerceQuantityCol t with
        | some t2 => (t2, false)
        | none => (Table.empty, true)
      else (t, false)

/-! ### Layer 2: the typed inventory table and the update handler -/

/-- One row of the loaded Sheet1 data: the three named columns the handler
touches, plus the remaining cells (e.g. a price column), passed through. -/
structure InvRow where
  product : String
  size : String
  quantity : Int
  extra : List Cell
deriving DecidableEq

abbrev InvTable := List InvRow

inductive Action where
  | add : Action
  | remove : Action
deriving DecidableEq

def Action.str : Action → String
  | Action.add => "Add"
  | Action.remove => "Remove"

/-- The boolean mask
`(existing_data['PRODUCT'] == p) & (existing_data['SIZE'] == s)`. -/
def rowMatches (p s : String) (r : InvRow) : Bool :=
  r.product == p && r.size == s

/-- `existing_data.loc[mask, 'QUANTITY'].values[0]` (lines 115-119): the
QUANTITY of the first row matching the mask; `none` models the
`IndexError` raised when no row matches. -/
def current_quantity (t : InvTable) (p s : String) : Option Int :=
  ((t.filter (rowMatches p s)).map InvRow.quantity).head?

/-- The `st.number_input` bounds (lines 127-130): Add has `min_value=0`;
Remove has `min_value=0, max_value=current_quantity`. A quantity outside
the bounds cannot be submitted. -/
def number_input_ok : Action → Int → Int → Bool
  | Action.add, _, q => decide (0 ≤ q)
  | Action.remove, cq, q => decide (0 ≤ q) && decide (q ≤ cq)

/-- `new_quantity = current_quantity + quantity` (Add) or
`current_quantity - quantity` (Remove) (lines 136, 139). -/
def new_quantity : Action → Int → Int → Int
  | Action.add, cq, q => cq + q
  | Action.remove, cq, q => cq - q

/-- `existing_data.loc[mask, 'QUANTITY'] = new_quantity` (lines 142-143):
every row matching the mask receives the same new quantity; all other rows
and all other fields are untouched, in order. -/
def applyMask (t : InvTable) (p s : String) (nq : Int) : InvTable :=
  t.map (fun r => if rowMatches p s r then { r with quantity := nq } else r)

/-! ### Timestamps -/

/-- Wall-clock time components of `datetime.now(local_tz)`. -/
structure DateTime where
  year : Nat
  month : Nat
  day : Nat
  hour : Nat
  minute : Nat
deriving DecidableEq

/-- The configured time zone (`pytz.timezone('Asia/Manila')`, line 44). -/
def local_tz : String := "Asia/Manila"

def digitChar (n : Nat) : Char := Char.ofNat (48 + n)

/-- Two-digit zero-padded field (`%m`, `%d`, `%I`, `%M`). -/
def pad2c (n : Nat) : List Char := [digitChar (n / 10 % 10), digitChar (n % 10)]

/-- Four-digit zero-padded field (`%Y`). -/
def pad4c (n : Nat) : List Char :=
  [digitChar (n / 1000 % 10), digitChar (n / 100 % 10), digitChar (n / 10 % 10),
   digitChar (n % 10)]

/-- `%I`: 12-hour clock, 01-12. -/
def hour12 (h : Nat) : Nat := if h % 12 = 0 then 12 else h % 12

/-- `%p`: AM for hours 0-11, PM for 12-23. -/
def ampmChars (h : Nat) : List Char := if h < 12 then ['A', 'M'] else ['P', 'M']

def strftimeChars (d : DateTime) : List Char :=
  pad4c d.year ++ '-' :: pad2c d.month ++ '-' :: pad2c d.day ++
    ' ' :: pad2c (hour12 d.hour) ++ ':' :: pad2c d.minute ++ ' ' :: ampmChars d.hour

/-- `datetime.now(local_tz).strftime("%Y-%m-%d %I:%M %p")` (line 47). -/
def strftime (d : DateTime) : String := String.mk (strftimeChars d)

/-- Field ranges in which the fixed-width model of `strftime` is faithful. -/
def validDT (d : DateTime) : Bool :=
  decide (d.year < 10000) && decide (0 < d.month) && decide (d.month ≤ 12) &&
    decide (0 < d.day) && decide (d.day ≤ 31) && decide (d.hour < 24) &&
    decide (d.minute < 60)

/-- Template matcher: `D` matches any digit, any other template character
matches itself exactly. -/
def matchesTemplate : List Char → List Char → Bool
  | [], [] => true
  | 'D' :: ps, c :: cs => c.isDigit && matchesTemplate ps cs
  | p :: ps, c :: cs => (p == c) && matchesTemplate ps cs
  | _, _ => false

/-- The `YYYY-MM-DD hh:mm AM/PM` date format of the spec. -/
def isDateFormat (s : String) : Bool :=
  matchesTemplate ['D','D','D','D','-','D','D','-','D','D',' ','D','D',':','D','D',' ','A','M'] s.data ||
    matchesTemplate ['D','D','D','D','-','D','D','-','D','D',' ','D','D',':','D','D',' ','P','M'] s.data

/-! ### The audit log and the update cycle -/

/-- One row of Sheet2 (`new_entry`, lines 46-52). -/
structure LogEntry where
  date : String
  product : String
  size : String
  quantity : Int
  action : String
deriving DecidableEq

def mkLogEntry (now : DateTime) (p s : String) (q : Int) (a : Action) : LogEntry :=
  ⟨strftime now, p, s, q, a.str⟩

/-- Outcomes of the external writes and of the log-table read, supplied by
the environment. -/
structure Oracle where
  invWriteOk : Bool
  logReadOk : Bool
  logWriteOk : Bool
deriving DecidableEq

def allOk : Oracle := ⟨true, true, true⟩

/-- An attempted external write (`conn.update`), with the data sent. -/
inductive Effect where
  | writeInventory : InvTable → Effect
  | writeLog : List LogEntry → Effect
deriving DecidableEq

structure LogResult where
  sheet2 : List LogEntry
  attempts : List Effect
  errorReported : Bool
deriving DecidableEq

/-- `log_inventory_change` (lines 40-60): read Sheet2 via `load_data`
(failure yields an empty table plus an error message), concatenate the new
entry, write Sheet2 in full; any exception from the write is caught and
reported. Returns the resulting Sheet2 contents, the attempted writes, and
whether an error was surfaced. -/
def log_inventory_change (o : Oracle) (sheet2 : List LogEntry) (now : DateTime)
    (p s : String) (q : Int) (a : Action) : LogResult :=
  let log_data := if o.logReadOk then sheet2 else []
  let updated := log_data ++ [mkLogEntry now p s q a]
  if o.logWriteOk then ⟨updated, [Effect.writeLog updated], !o.logReadOk⟩
  else ⟨sheet2, [Effect.writeLog updated], true⟩

/-- The two external sheets. -/
structure Store where
  sheet1 : InvTable
  sheet2 : List LogEntry
deriving DecidableEq

/-- Observable outcome of one interaction cycle. `notFound` models the
uncaught `IndexError` from `.values[0]` when no row matches (the spec's
`NotFoundError`); `invWriteFailed` the uncaught exception from the Sheet1
`conn.update`; `warned` the `st.warning` for a non-positive quantity;
`logErrorReported` the `st.error` calls inside `log_inventory_change`. -/
structure CycleResult where
  store : Store
  effects : List Effect
  notFound : Bool
  warned : Bool
  invWriteFailed : Bool
  logErrorReported : Bool
deriving DecidableEq

/-- The `Update Inventory` interaction (lines 114-155): read the current
quantity of the first matching row, collect a quantity within the widget
bounds, and on the button press with `quantity > 0` write the masked
update to Sheet1 and then append the log entry; otherwise warn and do
nothing. -/
def runUpdate (o : Oracle) (st : Store) (p s : String) (a : Action) (q : Int)
    (now : DateTime) : CycleResult :=
  match current_quantity st.sheet1 p s with
  | none => ⟨st, [], true, false, false, false⟩
  | some cq =>
      if number_input_ok a cq q then
        if q > 0 then
          let updated := applyMask st.sheet1 p s (new_quantity a cq q)
          if o.invWriteOk then
            let lr := log_inventory_change o st.sheet2 now p s q a
            ⟨⟨updated, lr.sheet2⟩, Effect.writeInventory updated :: lr.attempts,
             false, false, false, lr.errorReported⟩
          else ⟨st, [Effect.writeInventory updated], false, false, true, false⟩
        else ⟨st, [], false, true, false, false⟩
      else ⟨st, [], false, false, false, false⟩

/-- One requested mutation in a sequence of interaction cycles. -/
structure MutReq where
  product : String
  size : String
  action : Action
  delta : Int
  now : DateTime
deriving DecidableEq

def runStep (o : Oracle) (st : Store) (r : MutReq) : CycleResult :=
  runUpdate o st r.product r.size r.action r.delta r.now

def runMany (o : Oracle) (st : Store) : List MutReq → Store
  | [] => st
  | r :: rs => runMany o (runStep o st r).store rs

/-- A request that actually commits from store `st`: its row exists, the
widget bounds hold, and the delta is positive. -/
def stepCommits (st : Store) (r : MutReq) : Bool :=
  match current_quantity st.sheet1 r.product r.size with
  | none => false
  | some cq => number_input_ok r.action cq r.delta && decide (r.delta > 0)

def allCommitted (o : Oracle) (st : Store) : List MutReq → Bool
  | [] => true
  | r :: rs => stepCommits st r && allCommitted o (runStep o st r).store rs

/-- The log entry a request produces. -/
def entryOf (r : MutReq) : LogEntry :=
  mkLogEntry r.now r.product r.size r.delta r.action

/-! ### Helper lemmas -/

theorem digitChar_isDigit (n : Nat) : (digitChar (n % 10)).isDigit = true :=
  (by decide : ∀ m, m < 10 → (digitChar m).isDigit = true) _ (Nat.mod_lt _ (by norm_num))

theorem isDateFormat_strftime (d : DateTime) : isDateFormat (strftime d) = true := by
  by_cases hh : d.hour < 12 <;>
    simp [isDateFormat, strftime, strftimeChars, pad4c, pad2c, ampmChars, hh,
      matchesTemplate, digitChar_isDigit]

theorem filter_first {p s : String} (t1 t2 : InvTable) (r : InvRow)
    (h1 : ∀ x ∈ t1, rowMatches p s x = false) (hr : rowMatches p s r = true) :
    (t1 ++ r :: t2).filter (rowMatches p s) = r :: t2.filter (rowMatches p s) := by
  rw [List.filter_append, List.filter_eq_nil_iff.mpr (by simpa using h1)]
  simp [hr]

theorem current_quantity_first {p s : String} (t1 t2 : InvTable) (r : InvRow)
    (h1 : ∀ x ∈ t1, rowMatches p s x = false) (hr : rowMatches p s r = true) :
    current_quantity (t1 ++ r :: t2) p s = some r.quantity := by
  unfold current_quantity
  rw [filter_first t1 t2 r h1 hr]
  rfl

theorem applyMask_append (t1 t2 : InvTable) (p s : String) (nq : Int) :
    applyMask (t1 ++ t2) p s nq = applyMask t1 p s nq ++ applyMask t2 p s nq :=
  List.map_append _ _ _

theorem applyMask_cons (r : InvRow) (t : InvTable) (p s : String) (nq : Int) :
    applyMask (r :: t) p s nq =
      (if rowMatches p s r then { r with quantity := nq } else r) :: applyMask t p s nq :=
  rfl

theorem applyMask_nomatch (t : InvTable) (p s : String) (nq : Int)
    (h : ∀ x ∈ t, rowMatches p s x = false) : applyMask t p s nq = t := by
  unfold applyMask
  have hcongr : ∀ x ∈ t, (if rowMatches p s x then { x with quantity := nq } else x) = id x := by
    intro x hx
    simp [h x hx]
  rw [List.map_congr_left hcongr, List.map_id]

theorem runStep_sheet2 (st : Store) (r : MutReq) (h : stepCommits st r = true) :
    (runStep allOk st r).store.sheet2 = st.sheet2 ++ [entryOf r] := by
  unfold stepCommits at h
  cases hcq : current_quantity st.sheet1 r.product r.size with
  | none => rw [hcq] at h; cases h
  | some cq =>
      rw [hcq] at h
      simp only [Bool.and_eq_true, decide_eq_true_eq] at h
      simp [runStep, runUpdate, hcq, h.1, h.2, log_inventory_change, allOk, entryOf]

theorem runMany_sheet2 (st : Store) (reqs : List MutReq)
    (hc : allCommitted allOk st reqs = true) :
    (runMany allOk st reqs).sheet2 = st.sheet2 ++ reqs.map entryOf := by
  induction reqs generalizing st with
  | nil => simp [runMany]
  | cons r rs ih =>
      unfold allCommitted at hc
      simp only [Bool.and_eq_true] at hc
      unfold runMany
      rw [ih _ hc.2, runStep_sheet2 st r hc.1]
      simp

/-! ### Claim theorems -/

/-- Claim C1: for a row uniquely identified by exact match on (product,
size), an Add change with delta `d ≥ 0` (committed when `d > 0`) leaves the
inventory table with that row's QUANTITY equal to its old QUANTITY plus
`d`, every other row unchanged, and row order preserved. -/
theorem c1_add_updates_matched_row (o : Oracle) (sheet2 : List LogEntry)
    (t1 t2 : InvTable) (r : InvRow) (p s : String) (d : Int) (now : DateTime)
    (hr : rowMatches p s r = true)
    (h1 : ∀ x ∈ t1, rowMatches p s x = false)
    (h2 : ∀ x ∈ t2, rowMatches p s x = false)
    (hd : 0 ≤ d) (ho : o.invWriteOk = true) :
    (runUpdate o ⟨t1 ++ r :: t2, sheet2⟩ p s Action.add d now).store.sheet1 =
      t1 ++ { r with quantity := r.quantity + d } :: t2 := by
  have hcq := current_quantity_first t1 t2 r h1 hr
  rcases lt_or_eq_of_le hd with hpos | h0
  · simp [runUpdate, hcq, number_input_ok, hd, hpos, ho,
      applyMask_append, applyMask_cons, hr, new_quantity,
      applyMask_nomatch t1 p s _ h1, applyMask_nomatch t2 p s _ h2]
  · subst h0
    simp [runUpdate, hcq, number_input_ok]

/-- Claim C2: for the row matched on (product, size) with QUANTITY `q`, a
Remove change with delta `d > q` is rejected with no write and no log
append; with `0 ≤ d ≤ q` it produces QUANTITY `q - d` for that row, the
quantity being the one read from the table at call time. -/
theorem c2_remove_bounded (o : Oracle) (sheet2 : List LogEntry)
    (t1 t2 : InvTable) (r : InvRow) (p s : String) (d : Int) (now : DateTime)
    (hr : rowMatches p s r = true)
    (h1 : ∀ x ∈ t1, rowMatches p s x = false)
    (h2 : ∀ x ∈ t2, rowMatches p s x = false)
    (ho : o.invWriteOk = true) :
    (d > r.quantity →
      (runUpdate o ⟨t1 ++ r :: t2, sheet2⟩ p s Action.remove d now).store =
        ⟨t1 ++ r :: t2, sheet2⟩ ∧
      (runUpdate o ⟨t1 ++ r :: t2, sheet2⟩ p s Action.remove d now).effects = []) ∧
    (0 ≤ d → d ≤ r.quantity →
      (runUpdate o ⟨t1 ++ r :: t2, sheet2⟩ p s Action.remove d now).store.sheet1 =
        t1 ++ { r with quantity := r.quantity - d } :: t2) := by
  have hcq := current_quantity_first t1 t2 r h1 hr
  constructor
  · intro hgt
    have hwid : number_input_ok Action.remove r.quantity d = false := by
      simp only [number_input_ok, Bool.and_eq_false_iff, decide_eq_false_iff_not, not_le]
      right
      exact hgt
    simp [runUpdate, hcq, hwid]
  · intro hd0 hdle
    rcases lt_or_eq_of_le hd0 with hpos | h0
    · simp [runUpdate, hcq, number_input_ok, hd0, hdle, hpos, ho,
        applyMask_append, applyMask_cons, hr, new_quantity,
        applyMask_nomatch t1 p s _ h1, applyMask_nomatch t2 p s _ h2]
    · subst h0
      simp [runUpdate, hcq, number_input_ok, hdle]

/-- Claim C4: a committed change attempts the inventory write first and
the log write second; if the inventory write fails the log write is never
attempted and the cycle aborts; if the inventory write succeeds and the
log write then fails, the inventory change stays visible and the logging
failure is only reported. -/
theorem c4_inventory_write_before_log (o : Oracle) (st : Store) (p s : String)
    (a : Action) (d cq : Int) (now : DateTime)
    (hcq : current_quantity st.sheet1 p s = some cq)
    (hn : number_input_ok a cq d = true)
    (hd : 0 < d) :
    (o.invWriteOk = false →
      (runUpdate o st p s a d now).effects =
        [Effect.writeInventory (applyMask st.sheet1 p s (new_quantity a cq d))] ∧
      (runUpdate o st p s a d now).store = st ∧
      (runUpdate o st p s a d now).invWriteFailed = true) ∧
    (o.invWriteOk = true →
      ∃ lg : List LogEntry,
        (runUpdate o st p s a d now).effects =
          [Effect.writeInventory (applyMask st.sheet1 p s (new_quantity a cq d)),
           Effect.writeLog lg] ∧
        (runUpdate o st p s a d now).store.sheet1 =
          applyMask st.sheet1 p s (new_quantity a cq d) ∧
        (o.logWriteOk = false →
          (runUpdate o st p s a d now).store.sheet2 = st.sheet2 ∧
          (runUpdate o st p s a d now).logErrorReported = true)) := by
  constructor
  · intro hw
    simp [runUpdate, hcq, hn, hd, hw]
  · intro hw
    refine ⟨(if o.logReadOk then st.sheet2 else []) ++ [mkLogEntry now p s d a],
      ?_, ?_, ?_⟩
    · simp [runUpdate, hcq, hn, hd, hw, log_inventory_change]
      by_cases hl : o.logWriteOk = true <;> simp [hl]
    · simp [runUpdate, hcq, hn, hd, hw]
    · intro hl
      simp [runUpdate, hcq, hn, hd, hw, log_inventory_change, hl]

/-- Claim C6: a change request whose delta is not strictly positive
performs no inventory write and no log append, leaves the external state
unchanged, and (when the widget admits the value, i.e. delta 0) produces
only a warning. -/
theorem c6_zero_delta_no_effect (o : Oracle) (st : Store) (p s : String)
    (a : Action) (q cq : Int) (now : DateTime)
    (hcq : current_quantity st.sheet1 p s = some cq)
    (hq : q ≤ 0) :
    (runUpdate o st p s a q now).effects = [] ∧
    (runUpdate o st p s a q now).store = st ∧
    (number_input_ok a cq q = true → (runUpdate o st p s a q now).warned = true) := by
  have hngt : ¬(q > 0) := by omega
  by_cases hn : number_input_ok a cq q = true
  · simp [runUpdate, hcq, hn, hngt]
  · simp [runUpdate, hcq, hn, hngt]

/-- Claim C8: when no row of the table matches the selected (product,
size) exactly, the cycle signals the not-found condition (the uncaught
`IndexError` the spec calls `NotFoundError`) and is rejected before any
mutation or external write. -/
theorem c8_no_match_rejected (o : Oracle) (st : Store) (p s : String)
    (a : Action) (q : Int) (now : DateTime)
    (h : current_quantity st.sheet1 p s = none) :
    (runUpdate o st p s a q now).notFound = true ∧
    (runUpdate o st p s a q now).effects = [] ∧
    (runUpdate o st p s a q now).store = st := by
  simp [runUpdate, h]

/-- Claim C10: with several rows matching (product, size), the quantity
used for validation and for computing the new quantity is the first
matching row's, and the committed update writes that single computed new
quantity into every matching row, not only the first. -/
theorem c10_duplicates_all_overwritten (o : Oracle) (sheet2 : List LogEntry)
    (t1 t2 t3 : InvTable) (r r2 : InvRow) (p s : String) (a : Action) (d : Int)
    (now : DateTime)
    (hr : rowMatches p s r = true) (hr2 : rowMatches p s r2 = true)
    (h1 : ∀ x ∈ t1, rowMatches p s x = false)
    (hn : number_input_ok a r.quantity d = true)
    (hd : 0 < d) (ho : o.invWriteOk = true) :
    current_quantity (t1 ++ r :: (t2 ++ r2 :: t3)) p s = some r.quantity ∧
    (runUpdate o ⟨t1 ++ r :: (t2 ++ r2 :: t3), sheet2⟩ p s a d now).store.sheet1 =
      t1 ++ { r with quantity := new_quantity a r.quantity d } ::
        (applyMask t2 p s (new_quantity a r.quantity d) ++
          { r2 with quantity := new_quantity a r.quantity d } ::
            applyMask t3 p s (new_quantity a r.quantity d)) := by
  have hcq := current_quantity_first t1 (t2 ++ r2 :: t3) r h1 hr
  refine ⟨hcq, ?_⟩
  simp [runUpdate, hcq, hn, hd, ho, applyMask_append, applyMask_cons, hr, hr2,
    applyMask_nomatch t1 p s _ h1]

/-- Claim C3: after N committed mutations the log table equals the
original log extended, in order, by exactly the N entries produced, so no
prior entry is overwritten or edited; each appended entry records the
delta applied (not the resulting total), the Action as supplied, and a
Date string in the `YYYY-MM-DD hh:mm AM/PM` format of the fixed local
time zone. -/
theorem c3_log_monotonic_append (st : Store) (reqs : List MutReq)
    (hc : allCommitted allOk st reqs = true)
    (_hv : reqs.all (fun r => validDT r.now) = true) :
    (runMany allOk st reqs).sheet2 = st.sheet2 ++ reqs.map entryOf ∧
    reqs.map (fun r => (entryOf r).quantity) = reqs.map MutReq.delta ∧
    reqs.map (fun r => (entryOf r).action) = reqs.map (fun r => r.action.str) ∧
    reqs.all (fun r => isDateFormat (entryOf r).date) = true := by
  refine ⟨runMany_sheet2 st reqs hc, by simp [entryOf, mkLogEntry],
    by simp [entryOf, mkLogEntry], ?_⟩
  simp only [List.all_eq_true]
  intro r hr
  exact isDateFormat_strftime r.now

/-- Claim C9: a failed read of any sheet makes `load_data` return an empty
table and surface the error to the caller instead of raising, so the
interaction cycle stays renderable. -/
theorem c9_read_failure_returns_empty (sheet_name : String) :
    load_data (Except.error ()) sheet_name = (Table.empty, true) := rfl

/-- Claim C5, counterexample: a numeric QUANTITY value of -3 in the
backing Sheet1 is stored as -3 by `load_data`, so the stored result is not
a non-negative integer. -/
theorem c5_counterexample_negative_kept :
    (load_data (Except.ok ⟨["PRODUCT", "SIZE", "QUANTITY"],
        [[Cell.str "Shirt", Cell.str "M", Cell.num (-3)]]⟩) "Sheet1").1.rows =
      [[Cell.str "Shirt", Cell.str "M", Cell.num (-3)]] ∧
    ¬ (0 : Int) ≤ -3 := by
  constructor
  · rfl
  · decide

/-- Claim C5, amended: every value read into the primary inventory table's
QUANTITY column is stored as an integer; a missing value or a non-numeric
string is normalized to 0, a numeric value is kept as-is (so a negative
value stays negative); and the coercion applies only when reading
"Sheet1", not the log table. -/
theorem c5_quantity_coercion (str0 sheet : String) (raw : Table) (n : Int)
    (hs : sheet ≠ "Sheet1") (hstr : parseNumeric str0 = none) :
    coerceCell Cell.na = 0 ∧
    coerceCell (Cell.str str0) = 0 ∧
    coerceCell (Cell.num n) = n ∧
    load_data (Except.ok raw) sheet = (preprocess raw, false) := by
  refine ⟨rfl, ?_, rfl, ?_⟩
  · simp [coerceCell, hstr]
  · simp [load_data, hs]

/-- Claim C7, counterexample: a sixth backing column ("SUPPLIER") is not
passed through a read: `load_data` reads only the first five columns, so
the column is absent from the table that a later write-back sends. -/
theorem c7_counterexample_sixth_column_dropped :
    "SUPPLIER" ∈ (Table.mk ["PRODUCT", "SIZE", "QUANTITY", "PRICE", "COLOR", "SUPPLIER"]
        [[Cell.str "Shirt", Cell.str "M", Cell.num 10, Cell.num 5, Cell.str "Red",
          Cell.str "Acme"]]).headers ∧
    "SUPPLIER" ∉ (load_data (Except.ok
        (Table.mk ["PRODUCT", "SIZE", "QUANTITY", "PRICE", "COLOR", "SUPPLIER"]
          [[Cell.str "Shirt", Cell.str "M", Cell.num 10, Cell.num 5, Cell.str "Red",
            Cell.str "Acme"]])) "Sheet1").1.headers := by
  decide

/-- Claim C7, amended: among the first five columns of the backing table,
those whose header does not start with `Unnamed` are passed through a read
unchanged (on such tables with no fully-empty row the read is the
identity); the update writes back every row in order touching only the
QUANTITY field, so the PRODUCT, SIZE and pass-through cells of every row
and the row order are preserved. -/
theorem c7_passthrough_first_five (raw : Table) (t : InvTable) (p s : String)
    (nq : Int)
    (hlen : raw.headers.length ≤ 5)
    (hrows : ∀ row ∈ raw.rows, row.length = raw.headers.length)
    (hname : ∀ h ∈ raw.headers, keepHeader h = true)
    (hne : ∀ row ∈ raw.rows, row.all (fun c => c == Cell.na) = false) :
    preprocess raw = raw ∧
    (applyMask t p s nq).map InvRow.product = t.map InvRow.product ∧
    (applyMask t p s nq).map InvRow.size = t.map InvRow.size ∧
    (applyMask t p s nq).map InvRow.extra = t.map InvRow.extra ∧
    (applyMask t p s nq).length = t.length := by
  obtain ⟨hs, rows⟩ := raw
  have htake : takeCols 5 (Table.mk hs rows) = Table.mk hs rows := by
    have h1 : List.take 5 hs = hs := List.take_of_length_le hlen
    have h2 : rows.map (List.take 5) = rows := by
      have hcg : rows.map (List.take 5) = rows.map id :=
        List.map_congr_left (fun row hrow =>
          List.take_of_length_le (by rw [hrows row hrow]; exact hlen))
      rw [hcg, List.map_id]
    simp [takeCols, h1, h2]
  have hdropE : dropEmptyRows (Table.mk hs rows) = Table.mk hs rows := by
    have h2 : rows.filter (fun row => !(row.all (fun c => c == Cell.na))) = rows := by
      refine List.filter_eq_self.mpr ?_
      intro row hrow
      simp [hne row hrow]
    simp [dropEmptyRows, h2]
  have hdropU : dropUnnamedCols (Table.mk hs rows) = Table.mk hs rows := by
    have h1 : hs.filter keepHeader = hs := by
      refine List.filter_eq_self.mpr ?_
      intro a ha
      simp [hname a ha]
    have h2 : rows.map
        (fun row => ((hs.zip row).filter (fun hc => keepHeader hc.1)).map Prod.snd) =
        rows := by
      have hcg : rows.map
          (fun row => ((hs.zip row).filter (fun hc => keepHeader hc.1)).map Prod.snd) =
          rows.map id := by
        refine List.map_congr_left ?_
        intro row hrow
        have hfil : (hs.zip row).filter (fun hc => keepHeader hc.1) = hs.zip row := by
          refine List.filter_eq_self.mpr ?_
          intro a ha
          simp [hname a.1 (List.of_mem_zip ha).1]
        rw [hfil]
        exact List.map_snd_zip hs row (le_of_eq (hrows row hrow))
      rw [hcg, List.map_id]
    simp [dropUnnamedCols, h1, h2]
  refine ⟨?_, ?_, ?_, ?_, ?_⟩
  · show preprocess (Table.mk hs rows) = Table.mk hs rows
    rw [preprocess, htake, hdropE, hdropU]
  · rw [applyMask, List.map_map]
    refine List.map_congr_left ?_
    intro r hr
    by_cases hm : rowMatches p s r = true <;> simp [hm]
  · rw [applyMask, List.map_map]
    refine List.map_congr_left ?_
    intro r hr
    by_cases hm : rowMatches p s r = true <;> simp [hm]
  · rw [applyMask, List.map_map]
    refine List.map_congr_left ?_
    intro r hr
    by_cases hm : rowMatches p s r = true <;> simp [hm]
  · simp [applyMask]

/-! ### Witnesses: the claim theorems evaluated at concrete inputs -/

theorem c1_witness :
    (runUpdate allOk ⟨[InvRow.mk "Pants" "L" 4 []] ++ InvRow.mk "Shirt" "M" 10 [] ::
        [InvRow.mk "Shirt" "S" 2 []], []⟩ "Shirt" "M" Action.add 5
        (DateTime.mk 2024 1 2 15 30)).store.sheet1 =
      [InvRow.mk "Pants" "L" 4 []] ++
        { InvRow.mk "Shirt" "M" 10 [] with
            quantity := (InvRow.mk "Shirt" "M" 10 []).quantity + 5 } ::
        [InvRow.mk "Shirt" "S" 2 []] :=
  c1_add_updates_matched_row allOk [] [InvRow.mk "Pants" "L" 4 []]
    [InvRow.mk "Shirt" "S" 2 []] (InvRow.mk "Shirt" "M" 10 []) "Shirt" "M" 5
    (DateTime.mk 2024 1 2 15 30) (by decide) (by decide) (by decide) (by decide) rfl

theorem c2_witness :
    ((runUpdate allOk ⟨[] ++ InvRow.mk "Shirt" "M" 10 [] :: [], []⟩ "Shirt" "M"
        Action.remove 12 (DateTime.mk 2024 1 2 9 5)).store =
      ⟨[] ++ InvRow.mk "Shirt" "M" 10 [] :: [], []⟩ ∧
     (runUpdate allOk ⟨[] ++ InvRow.mk "Shirt" "M" 10 [] :: [], []⟩ "Shirt" "M"
        Action.remove 12 (DateTime.mk 2024 1 2 9 5)).effects = []) ∧
    (runUpdate allOk ⟨[] ++ InvRow.mk "Shirt" "M" 10 [] :: [], []⟩ "Shirt" "M"
        Action.remove 4 (DateTime.mk 2024 1 2 9 5)).store.sheet1 =
      [] ++ { InvRow.mk "Shirt" "M" 10 [] with
          quantity := (InvRow.mk "Shirt" "M" 10 []).quantity - 4 } :: [] :=
  ⟨(c2_remove_bounded allOk [] [] [] (InvRow.mk "Shirt" "M" 10 []) "Shirt" "M" 12
      (DateTime.mk 2024 1 2 9 5) (by decide) (by decide) (by decide) rfl).1 (by decide),
   (c2_remove_bounded allOk [] [] [] (InvRow.mk "Shirt" "M" 10 []) "Shirt" "M" 4
      (DateTime.mk 2024 1 2 9 5) (by decide) (by decide) (by decide) rfl).2
     (by decide) (by decide)⟩

theorem c3_witness :
    (runMany allOk ⟨[InvRow.mk "Shirt" "M" 10 []], []⟩
        [MutReq.mk "Shirt" "M" Action.add 5 (DateTime.mk 2024 1 2 15 30),
         MutReq.mk "Shirt" "M" Action.remove 3 (DateTime.mk 2024 1 2 16 0)]).sheet2 =
      [] ++ [MutReq.mk "Shirt" "M" Action.add 5 (DateTime.mk 2024 1 2 15 30),
         MutReq.mk "Shirt" "M" Action.remove 3 (DateTime.mk 2024 1 2 16 0)].map entryOf :=
  (c3_log_monotonic_append ⟨[InvRow.mk "Shirt" "M" 10 []], []⟩
      [MutReq.mk "Shirt" "M" Action.add 5 (DateTime.mk 2024 1 2 15 30),
       MutReq.mk "Shirt" "M" Action.remove 3 (DateTime.mk 2024 1 2 16 0)]
      (by decide) (by decide)).1

theorem c4_witness :
    (runUpdate ⟨false, true, true⟩ ⟨[InvRow.mk "Shirt" "M" 10 []], []⟩ "Shirt" "M"
        Action.add 5 (DateTime.mk 2024 1 2 15 30)).effects =
      [Effect.writeInventory (applyMask [InvRow.mk "Shirt" "M" 10 []] "Shirt" "M"
        (new_quantity Action.add 10 5))] ∧
    (runUpdate ⟨false, true, true⟩ ⟨[InvRow.mk "Shirt" "M" 10 []], []⟩ "Shirt" "M"
        Action.add 5 (DateTime.mk 2024 1 2 15 30)).store =
      ⟨[InvRow.mk "Shirt" "M" 10 []], []⟩ ∧
    (runUpdate ⟨false, true, true⟩ ⟨[InvRow.mk "Shirt" "M" 10 []], []⟩ "Shirt" "M"
        Action.add 5 (DateTime.mk 2024 1 2 15 30)).invWriteFailed = true :=
  (c4_inventory_write_before_log ⟨false, true, true⟩ ⟨[InvRow.mk "Shirt" "M" 10 []], []⟩
      "Shirt" "M" Action.add 5 10 (DateTime.mk 2024 1 2 15 30)
      (by decide) (by decide) (by decide)).1 rfl

theorem c5_witness :
    coerceCell Cell.na = 0 ∧
    coerceCell (Cell.str "N/A") = 0 ∧
    coerceCell (Cell.num (-7)) = -7 ∧
    load_data (Except.ok (Table.mk ["Date", "Product"] [[Cell.str "x", Cell.str "y"]]))
        "Sheet2" =
      (preprocess (Table.mk ["Date", "Product"] [[Cell.str "x", Cell.str "y"]]), false) :=
  c5_quantity_coercion "N/A" "Sheet2"
    (Table.mk ["Date", "Product"] [[Cell.str "x", Cell.str "y"]]) (-7)
    (by decide) (by decide)

theorem c6_witness :
    (runUpdate allOk ⟨[InvRow.mk "Shirt" "M" 10 []], []⟩ "Shirt" "M" Action.add 0
        (DateTime.mk 2024 1 2 15 30)).effects = [] ∧
    (runUpdate allOk ⟨[InvRow.mk "Shirt" "M" 10 []], []⟩ "Shirt" "M" Action.add 0
        (DateTime.mk 2024 1 2 15 30)).store = ⟨[InvRow.mk "Shirt" "M" 10 []], []⟩ ∧
    (runUpdate allOk ⟨[InvRow.mk "Shirt" "M" 10 []], []⟩ "Shirt" "M" Action.add 0
        (DateTime.mk 2024 1 2 15 30)).warned = true :=
  ⟨(c6_zero_delta_no_effect allOk ⟨[InvRow.mk "Shirt" "M" 10 []], []⟩ "Shirt" "M"
      Action.add 0 10 (DateTime.mk 2024 1 2 15 30) (by decide) (by decide)).1,
   (c6_zero_delta_no_effect allOk ⟨[InvRow.mk "Shirt" "M" 10 []], []⟩ "Shirt" "M"
      Action.add 0 10 (DateTime.mk 2024 1 2 15 30) (by decide) (by decide)).2.1,
   (c6_zero_delta_no_effect allOk ⟨[InvRow.mk "Shirt" "M" 10 []], []⟩ "Shirt" "M"
      Action.add 0 10 (DateTime.mk 2024 1 2 15 30) (by decide) (by decide)).2.2 (by decide)⟩

theorem c7_witness :
    preprocess (Table.mk ["PRODUCT", "SIZE", "QUANTITY", "PRICE"]
        [[Cell.str "Shirt", Cell.str "M", Cell.num 10, Cell.num 5]]) =
      Table.mk ["PRODUCT", "SIZE", "QUANTITY", "PRICE"]
        [[Cell.str "Shirt", Cell.str "M", Cell.num 10, Cell.num 5]] ∧
    (applyMask [InvRow.mk "Shirt" "M" 10 [Cell.num 5], InvRow.mk "Pants" "L" 4 [Cell.num 7]]
        "Shirt" "M" 15).map InvRow.product =
      [InvRow.mk "Shirt" "M" 10 [Cell.num 5], InvRow.mk "Pants" "L" 4 [Cell.num 7]].map
        InvRow.product ∧
    (applyMask [InvRow.mk "Shirt" "M" 10 [Cell.num 5], InvRow.mk "Pants" "L" 4 [Cell.num 7]]
        "Shirt" "M" 15).map InvRow.size =
      [InvRow.mk "Shirt" "M" 10 [Cell.num 5], InvRow.mk "Pants" "L" 4 [Cell.num 7]].map
        InvRow.size ∧
    (applyMask [InvRow.mk "Shirt" "M" 10 [Cell.num 5], InvRow.mk "Pants" "L" 4 [Cell.num 7]]
        "Shirt" "M" 15).map InvRow.extra =
      [InvRow.mk "Shirt" "M" 10 [Cell.num 5], InvRow.mk "Pants" "L" 4 [Cell.num 7]].map
        InvRow.extra ∧
    (applyMask [InvRow.mk "Shirt" "M" 10 [Cell.num 5], InvRow.mk "Pants" "L" 4 [Cell.num 7]]
        "Shirt" "M" 15).length =
      [InvRow.mk "Shirt" "M" 10 [Cell.num 5], InvRow.mk "Pants" "L" 4 [Cell.num 7]].length :=
  c7_passthrough_first_five
    (Table.mk ["PRODUCT", "SIZE", "QUANTITY", "PRICE"]
      [[Cell.str "Shirt", Cell.str "M", Cell.num 10, Cell.num 5]])
    [InvRow.mk "Shirt" "M" 10 [Cell.num 5], InvRow.mk "Pants" "L" 4 [Cell.num 7]]
    "Shirt" "M" 15 (by decide) (by decide) (by decide) (by decide)

theorem c8_witness :
    (runUpdate allOk ⟨[InvRow.mk "Pants" "L" 4 []], []⟩ "Shirt" "M" Action.add 5
        (DateTime.mk 2024 1 2 15 30)).notFound = true ∧
    (runUpdate allOk ⟨[InvRow.mk "Pants" "L" 4 []], []⟩ "Shirt" "M" Action.add 5
        (DateTime.mk 2024 1 2 15 30)).effects = [] ∧
    (runUpdate allOk ⟨[InvRow.mk "Pants" "L" 4 []], []⟩ "Shirt" "M" Action.add 5
        (DateTime.mk 2024 1 2 15 30)).store = ⟨[InvRow.mk "Pants" "L" 4 []], []⟩ :=
  c8_no_match_rejected allOk ⟨[InvRow.mk "Pants" "L" 4 []], []⟩ "Shirt" "M" Action.add 5
    (DateTime.mk 2024 1 2 15 30) (by decide)

theorem c10_witness :
    current_quantity ([InvRow.mk "Pants" "L" 4 []] ++ InvRow.mk "Shirt" "M" 10 [] ::
        ([] ++ InvRow.mk "Shirt" "M" 7 [] :: [])) "Shirt" "M" =
      some (InvRow.mk "Shirt" "M" 10 []).quantity ∧
    (runUpdate allOk ⟨[InvRow.mk "Pants" "L" 4 []] ++ InvRow.mk "Shirt" "M" 10 [] ::
        ([] ++ InvRow.mk "Shirt" "M" 7 [] :: []), []⟩ "Shirt" "M" Action.add 5
        (DateTime.mk 2024 1 2 15 30)).store.sheet1 =
      [InvRow.mk "Pants" "L" 4 []] ++
        { InvRow.mk "Shirt" "M" 10 [] with
            quantity := new_quantity Action.add (InvRow.mk "Shirt" "M" 10 []).quantity 5 } ::
        (applyMask [] "Shirt" "M"
            (new_quantity Action.add (InvRow.mk "Shirt" "M" 10 []).quantity 5) ++
          { InvRow.mk "Shirt" "M" 7 [] with
              quantity := new_quantity Action.add (InvRow.mk "Shirt" "M" 10 []).quantity 5 } ::
            applyMask [] "Shirt" "M"
              (new_quantity Action.add (InvRow.mk "Shirt" "M" 10 []).quantity 5)) :=
  c10_duplicates_all_overwritten allOk [] [InvRow.mk "Pants" "L" 4 []] [] []
    (InvRow.mk "Shirt" "M" 10 []) (InvRow.mk "Shirt" "M" 7 []) "Shirt" "M" Action.add 5
    (DateTime.mk 2024 1 2 15 30) (by decide) (by decide) (by decide) (by decide)
    (by decide) rfl

end Inv
